import Mathlib

/-!
Verification of the OCR screen-translator overlay (src/OCR_Translate.py).

This file shallowly embeds the interactive dual-box manipulation model and
the capture-recognize-translate pipeline of `OCR_Translate.py`:

* `QPoint` / `QRect` embed the Qt geometry values the program uses, with
  Qt's conventions (`right = x + width - 1`, `bottom = y + height - 1`,
  `contains` includes the edges).
* `DraggableResizableBox` embeds the class of the same name, with the two
  interaction flags `dragging` / `resizing`, the `resize_margin` (always 10)
  and the `drag_start` anchor.  Paint-only fields (`color`, font,
  `is_translation_box`) are omitted: no geometry or pipeline behaviour reads
  them.  The `parent.screen_width` / `parent.screen_height` back-references
  are passed as explicit `sw` / `sh` arguments.
* `pyStrip` / `pyIntOfString?` embed the Python `str.strip()` and `int(str)`
  library calls used by the program (ASCII whitespace and plain decimal
  integers; the program only ever stores such strings itself).
* `load_box_geometry` embeds the geometry-restoring fragment of
  `Overlay.init_ui` (lines 134-149): an uncaught Python `ValueError` from
  `map(int, data.split(","))` is modelled as `Except.error`.
* `capture_and_translate_iteration` embeds one iteration of the pipeline
  loop `Overlay.capture_and_translate` (lines 205-230), with the external
  collaborators (`mss.grab`, `pytesseract.image_to_string`,
  `Translator.translate`) abstracted as an `ExternalServices` record and the
  queued `invokeMethod` call modelled as appending to a channel queue.
* `update_translation` embeds the slot of the same name (lines 232-236);
  the `redraws` counter counts its `self.update()` call.
* `monitor_from_reads` embeds the fact that the pipeline builds its capture
  region from four separate attribute reads of the shared selection
  rectangle (lines 206-211), so that interleavings with UI-thread mutations
  can be stated.
-/

/-- Embeds `QtCore.QPoint`: an integer screen point. -/
structure QPoint where
  x : Int
  y : Int
  deriving Repr, DecidableEq

/-- Embeds `QtCore.QRect`, stored as Qt stores it: top-left corner `(x, y)`
plus `w`/`h` (width/height).  Accessors follow the Qt API used in the
source. -/
structure QRect where
  x : Int
  y : Int
  w : Int
  h : Int
  deriving Repr, DecidableEq

/-- Qt `QRect.left()`. -/
def QRect.left (r : QRect) : Int := r.x

/-- Qt `QRect.top()`. -/
def QRect.top (r : QRect) : Int := r.y

/-- Qt `QRect.width()`. -/
def QRect.width (r : QRect) : Int := r.w

/-- Qt `QRect.height()`. -/
def QRect.height (r : QRect) : Int := r.h

/-- Qt `QRect.right()`, which is `x + width - 1` (Qt's historical
convention). -/
def QRect.right (r : QRect) : Int := r.x + r.w - 1

/-- Qt `QRect.bottom()`, which is `y + height - 1`. -/
def QRect.bottom (r : QRect) : Int := r.y + r.h - 1

/-- Qt `QRect.contains(point)` (with `proper = false`): the point is inside
or on the edge.  Mirrors the Qt implementation, which first normalises a
rectangle whose stored corners are inverted (relevant only for
width/height `≤ 0`). -/
def QRect.contains (rc : QRect) (p : QPoint) : Bool :=
  let x2 := rc.x + rc.w - 1
  let l := if x2 < rc.x - 1 then x2 else rc.x
  let r := if x2 < rc.x - 1 then rc.x else x2
  let y2 := rc.y + rc.h - 1
  let t := if y2 < rc.y - 1 then y2 else rc.y
  let b := if y2 < rc.y - 1 then rc.y else y2
  decide (l ≤ p.x) && decide (p.x ≤ r) && decide (t ≤ p.y) && decide (p.y ≤ b)

/-- Qt `QRect.moveTo(x, y)`: move the top-left corner, keeping the size. -/
def QRect.moveTo (r : QRect) (nx ny : Int) : QRect :=
  { r with x := nx, y := ny }

/-- Qt `QRect.setWidth(w)`: change the width, keeping the top-left corner. -/
def QRect.setWidth (r : QRect) (nw : Int) : QRect :=
  { r with w := nw }

/-- Qt `QRect.setHeight(h)`: change the height, keeping the top-left
corner. -/
def QRect.setHeight (r : QRect) (nh : Int) : QRect :=
  { r with h := nh }

/-- Embeds the interaction state of class `DraggableResizableBox`
(lines 12-100).  Paint-only attributes (`color`, `font`,
`is_translation_box`, the `parent` back-reference) are omitted; the parent's
screen dimensions are passed to `mouse_move_event` explicitly. -/
structure DraggableResizableBox where
  rect : QRect
  dragging : Bool
  resizing : Bool
  resize_margin : Int
  drag_start : QPoint
  deriving Repr, DecidableEq

/-- Embeds `DraggableResizableBox.__init__` (lines 16-26): flags start
`False`, `resize_margin = 10`, `drag_start = QPoint()` which is `(0, 0)`. -/
def DraggableResizableBox.init (rect : QRect) : DraggableResizableBox :=
  { rect := rect, dragging := false, resizing := false,
    resize_margin := 10, drag_start := ⟨0, 0⟩ }

/-- The spec's tagged interaction mode, as a view of the two flags.  The
`dragging` flag is tested first, matching the order of the tests in
`mouse_move_event`. -/
inductive Mode
  | Idle
  | Dragging
  | Resizing
  deriving Repr, DecidableEq

/-- The mode view of a box: `Dragging` if the `dragging` flag is set, else
`Resizing` if the `resizing` flag is set, else `Idle`. -/
def DraggableResizableBox.mode (b : DraggableResizableBox) : Mode :=
  if b.dragging then Mode.Dragging
  else if b.resizing then Mode.Resizing
  else Mode.Idle

/-- Embeds `DraggableResizableBox.mouse_press_event` (lines 53-65): if the
event position is inside the rectangle, enter resizing when within
`resize_margin` of `(right, bottom)` in both coordinates, otherwise enter
dragging, and record the anchor; outside the rectangle nothing changes
(the source only calls `event.ignore()`, which concerns Qt event
propagation, not box state). -/
def DraggableResizableBox.mouse_press_event
    (b : DraggableResizableBox) (pos : QPoint) : DraggableResizableBox :=
  if b.rect.contains pos then
    if |pos.x - b.rect.right| < b.resize_margin ∧
        |pos.y - b.rect.bottom| < b.resize_margin then
      { b with resizing := true, drag_start := pos }
    else
      { b with dragging := true, drag_start := pos }
  else
    b

/-- Embeds `DraggableResizableBox.mouse_move_event` (lines 67-93).  `sw` and
`sh` stand for `self.parent.screen_width` / `screen_height`.  Returns the
updated box and the Python return value (`True` when the event was
consumed, `False` otherwise; a fall-through in Python returns `None`,
which is falsy, so `false` models it). -/
def DraggableResizableBox.mouse_move_event
    (b : DraggableResizableBox) (sw sh : Int) (pos : QPoint) :
    DraggableResizableBox × Bool :=
  if b.dragging then
    let dx := pos.x - b.drag_start.x
    let dy := pos.y - b.drag_start.y
    let new_x := b.rect.x + dx
    let new_y := b.rect.y + dy
    let new_x := max 0 (min new_x (sw - b.rect.width))
    let new_y := max 0 (min new_y (sh - b.rect.height))
    ({ b with rect := b.rect.moveTo new_x new_y, drag_start := pos }, true)
  else if b.resizing then
    let dx := pos.x - b.drag_start.x
    let dy := pos.y - b.drag_start.y
    let new_width := max (b.rect.width + dx) 100
    let new_height := max (b.rect.height + dy) 50
    let new_width := min new_width (sw - b.rect.x)
    let new_height := min new_height (sh - b.rect.y)
    ({ b with
        rect := (b.rect.setWidth new_width).setHeight new_height,
        drag_start := pos }, true)
  else
    (b, false)

/-- Embeds `DraggableResizableBox.mouse_release_event` (lines 95-97): both
flags are cleared unconditionally; nothing else is touched. -/
def DraggableResizableBox.mouse_release_event
    (b : DraggableResizableBox) : DraggableResizableBox :=
  { b with dragging := false, resizing := false }

/-- Folding a sequence of move events over a box (the box returned by each
event is the receiver of the next). -/
def moves (sw sh : Int) (b : DraggableResizableBox) (ps : List QPoint) :
    DraggableResizableBox :=
  ps.foldl (fun acc p => (acc.mouse_move_event sw sh p).1) b

/-- The spec's data-model invariant for a rectangle on a `sw × sh` screen:
minimum size 100 × 50 and bounds inside `[0, sw] × [0, sh]`. -/
def RectInvariant (sw sh : Int) (r : QRect) : Prop :=
  0 ≤ r.x ∧ 0 ≤ r.y ∧ 100 ≤ r.w ∧ 50 ≤ r.h ∧ r.x + r.w ≤ sw ∧ r.y + r.h ≤ sh

instance (sw sh : Int) (r : QRect) : Decidable (RectInvariant sw sh r) := by
  unfold RectInvariant
  infer_instance

/-- Python `str.strip()`'s whitespace test, restricted to the ASCII
whitespace characters (space, tab, newline, vertical tab, form feed,
carriage return); the program itself only ever writes plain
comma-separated decimal digits, so the non-ASCII Unicode whitespace
accepted by Python never arises. -/
def pyIsSpace (c : Char) : Bool :=
  c = ' ' || c = '\t' || c = '\n' || c = '\x0b' || c = '\x0c' || c = '\r'

/-- Python `s.strip()`: drop leading and trailing whitespace. -/
def pyStrip (s : String) : String :=
  String.mk (((s.toList.dropWhile pyIsSpace).reverse.dropWhile pyIsSpace).reverse)

/-- Value of a nonempty all-digit character list, `none` otherwise. -/
def pyDigitsVal? (cs : List Char) : Option Nat :=
  if cs = [] then none
  else if cs.all Char.isDigit then
    some (cs.foldl (fun acc c => acc * 10 + (c.toNat - 48)) 0)
  else none

/-- Python `int(s)` for a decimal string: strips whitespace, accepts an
optional sign followed by digits, and is `none` (a raised `ValueError`)
otherwise.  (Python's underscore digit grouping is not modelled; the
program never writes such strings.) -/
def pyIntOfString? (s : String) : Option Int :=
  match (pyStrip s).toList with
  | '+' :: rest => (pyDigitsVal? rest).map (fun n => (n : Int))
  | '-' :: rest => (pyDigitsVal? rest).map (fun n => -(n : Int))
  | cs => (pyDigitsVal? cs).map (fun n => (n : Int))

/-- Python `map(int, parts)` consumed by unpacking into four variables:
`none` models the `ValueError` raised either by a non-integer part or by an
unpacking-arity mismatch. -/
def mapIntList? (parts : List String) : Option (List Int) :=
  match parts with
  | [] => some []
  | s :: rest =>
    match pyIntOfString? s with
    | none => none
    | some n =>
      match mapIntList? rest with
      | none => none
      | some ns => some (n :: ns)

/-- The uncaught Python exception that aborts `Overlay.__init__` when a
stored geometry string is malformed. -/
inductive GeomLoadError
  | valueError
  deriving Repr, DecidableEq

/-- Python `s.split(sep)` for a one-character separator, over the character
list: splitting never drops empty parts, and the empty string splits to
one empty part. -/
def pySplitChar (sep : Char) (cs : List Char) : List (List Char) :=
  match cs with
  | [] => [[]]
  | c :: rest =>
    let r := pySplitChar sep rest
    if c = sep then [] :: r
    else
      match r with
      | [] => [[c]]
      | g :: gs => (c :: g) :: gs

/-- Embeds line 139 / 146 of `Overlay.init_ui`:
`left, top, width, height = map(int, data.split(","))` followed by
`QRect(left, top, width, height)`.  `none` models the raised
`ValueError`. -/
def parse_geometry (data : String) : Option QRect :=
  match mapIntList? ((pySplitChar ',' data.toList).map String.mk) with
  | some [left, top, width, height] => some ⟨left, top, width, height⟩
  | _ => none

/-- Embeds the geometry-restoring fragment of `Overlay.init_ui`
(lines 134-149) for one box: `stored` is `settings.value(key, None)`.
When no value is stored the default rectangle is used; when a value is
stored it is parsed, and a malformed value raises `ValueError`, which
nothing in `Overlay.__init__` catches — modelled as `Except.error`. -/
def load_box_geometry (stored : Option String) (default_rect : QRect) :
    Except GeomLoadError QRect :=
  match stored with
  | none => Except.ok default_rect
  | some data =>
    match parse_geometry data with
    | some r => Except.ok r
    | none => Except.error GeomLoadError.valueError

/-- Default selection-box rectangle (line 131). -/
def default_selection_rect : QRect := ⟨100, 100, 300, 200⟩

/-- Default translation-box rectangle (line 132). -/
def default_translation_rect : QRect := ⟨420, 100, 300, 200⟩

/-- Opaque stand-in for the in-memory RGB image produced by
`Image.frombytes` from the grab result. -/
structure RGBImage where
  raw : Nat
  deriving Repr, DecidableEq

/-- The errors a pipeline iteration's external calls can raise; all are
caught by the single `except` clause at line 228. -/
inductive PipeErr
  | captureError
  | recognitionError
  | translationError
  deriving Repr, DecidableEq

/-- The monitor dictionary passed to `sct.grab` (lines 206-211). -/
structure Monitor where
  top : Int
  left : Int
  width : Int
  height : Int
  deriving Repr, DecidableEq

/-- The monitor dictionary computed from one consistent rectangle value. -/
def monitorOf (r : QRect) : Monitor :=
  { top := r.top, left := r.left, width := r.width, height := r.height }

/-- The external collaborators of one pipeline iteration: `sct.grab`
composed with `Image.frombytes`, `pytesseract.image_to_string`, and
`Translator.translate(·, src, dest).text`.  Each is modelled as possibly
raising. -/
structure ExternalServices where
  grab : Monitor → Except PipeErr RGBImage
  image_to_string : RGBImage → Except PipeErr String
  translate : String → Except PipeErr String

/-- The controller state a pipeline iteration can read or affect:
`running` and the selection rectangle are read; a successful iteration
appends the translated text to the cross-thread channel queue (the
`QMetaObject.invokeMethod` call with `QueuedConnection`); `translated_text`
and the redraw counter are touched only when the UI thread later runs the
queued `update_translation` slot. -/
structure OverlayState where
  running : Bool
  translated_text : String
  selection_rect : QRect
  queued : List String
  redraws : Nat
  deriving Repr, DecidableEq

/-- Result of one pipeline iteration: the state afterwards, whether the
translation service was invoked, and the exception caught by the `except`
clause, if any. -/
structure IterOutcome where
  state : OverlayState
  translate_called : Bool
  caught : Option PipeErr
  deriving Repr, DecidableEq

/-- Embeds one iteration of `Overlay.capture_and_translate` (lines
205-230): build the monitor from the selection rectangle, grab, recognize;
when the recognized text is non-blank after stripping, translate and queue
the result for the UI thread; any raised error is caught, logged and
swallowed. -/
def capture_and_translate_iteration (c : ExternalServices)
    (s : OverlayState) : IterOutcome :=
  let monitor := monitorOf s.selection_rect
  match c.grab monitor with
  | Except.error e => ⟨s, false, some e⟩
  | Except.ok img =>
    match c.image_to_string img with
    | Except.error e => ⟨s, false, some e⟩
    | Except.ok text =>
      if pyStrip text ≠ "" then
        match c.translate text with
        | Except.error e => ⟨s, true, some e⟩
        | Except.ok translated =>
          ⟨{ s with queued := s.queued ++ [translated] }, true, none⟩
      else
        ⟨s, false, none⟩

/-- Embeds the `while self.running` pipeline loop, fuel-bounded (each unit
of fuel is one interval; `time.sleep` is abstracted away). -/
def capture_and_translate_loop (c : ExternalServices) (fuel : Nat)
    (s : OverlayState) : OverlayState :=
  match fuel with
  | 0 => s
  | n + 1 =>
    if s.running then
      capture_and_translate_loop c n (capture_and_translate_iteration c s).state
    else s

/-- Embeds the `update_translation` slot (lines 232-236), run on the UI
thread for one queued delivery: sets `translated_text` (the source assigns
the same field twice, once directly and once through the
`translation_box.parent` back-reference to the same object) and calls
`self.update()` once, counted by `redraws`. -/
def update_translation (s : OverlayState) (t : String) : OverlayState :=
  { s with translated_text := t, redraws := s.redraws + 1 }

/-- The UI thread draining the cross-thread channel: each queued string is
delivered to `update_translation` in order. -/
def drain_channel (s : OverlayState) : OverlayState :=
  List.foldl update_translation { s with queued := [] } s.queued

/-- The monitor dictionary as the source actually builds it (lines
206-211): four separate attribute reads of the shared selection rectangle,
in source order `top`, `left`, `width`, `height`; `f i` is the rectangle
value seen by the `i`-th read. -/
def monitor_from_reads (f : Fin 4 → QRect) : Monitor :=
  { top := (f 0).top, left := (f 1).left,
    width := (f 2).width, height := (f 3).height }

/-- An observation of a trace of published rectangle values: each of the
four reads sees some element of the trace, at positions that only move
forward in time. -/
def Obs (trace : List QRect) (f : Fin 4 → QRect) : Prop :=
  ∃ idx : Fin 4 → Nat,
    (∀ i j : Fin 4, i ≤ j → idx i ≤ idx j) ∧
    ∀ i, trace.get? (idx i) = some (f i)

/-- The consistency property claimed of the pipeline's rectangle read:
every observation of a mutation trace equals the monitor of some single
published rectangle. -/
def SnapshotConsistent (trace : List QRect) : Prop :=
  ∀ f : Fin 4 → QRect, Obs trace f →
    ∃ r ∈ trace, monitor_from_reads f = monitorOf r

/-- Characterisation of the `Dragging` mode view. -/
theorem mode_dragging_iff (b : DraggableResizableBox) :
    b.mode = Mode.Dragging ↔ b.dragging = true := by
  cases hd : b.dragging <;> cases hr : b.resizing <;>
    simp [DraggableResizableBox.mode, hd, hr]

/-- Characterisation of the `Resizing` mode view. -/
theorem mode_resizing_iff (b : DraggableResizableBox) :
    b.mode = Mode.Resizing ↔ b.dragging = false ∧ b.resizing = true := by
  cases hd : b.dragging <;> cases hr : b.resizing <;>
    simp [DraggableResizableBox.mode, hd, hr]

/-- Characterisation of the `Idle` mode view. -/
theorem mode_idle_iff (b : DraggableResizableBox) :
    b.mode = Mode.Idle ↔ b.dragging = false ∧ b.resizing = false := by
  cases hd : b.dragging <;> cases hr : b.resizing <;>
    simp [DraggableResizableBox.mode, hd, hr]

/-- One dragging move event preserves the data-model invariant and the
`dragging` flag. -/
theorem drag_step_preserves (sw sh : Int) (b : DraggableResizableBox)
    (p : QPoint) (hd : b.dragging = true)
    (hinv : RectInvariant sw sh b.rect) :
    RectInvariant sw sh ((b.mouse_move_event sw sh p).1).rect ∧
      ((b.mouse_move_event sw sh p).1).dragging = true := by
  obtain ⟨a1, a2, a3, a4, a5, a6⟩ := hinv
  unfold RectInvariant
  simp [DraggableResizableBox.mouse_move_event, hd, QRect.moveTo,
    QRect.width, QRect.height]
  omega

/-- A sequence of dragging move events preserves the data-model invariant
and the `dragging` flag. -/
theorem drag_moves_inv (sw sh : Int) (ps : List QPoint)
    (b : DraggableResizableBox) (hd : b.dragging = true)
    (hinv : RectInvariant sw sh b.rect) :
    RectInvariant sw sh (moves sw sh b ps).rect ∧
      (moves sw sh b ps).dragging = true := by
  induction ps generalizing b with
  | nil => exact ⟨hinv, hd⟩
  | cons p ps ih =>
    have h := drag_step_preserves sw sh b p hd hinv
    have := ih ((b.mouse_move_event sw sh p).1) h.2 h.1
    simpa [moves, List.foldl] using this

/-- One resizing move event preserves the data-model invariant and both
flags. -/
theorem resize_step_preserves (sw sh : Int) (b : DraggableResizableBox)
    (p : QPoint) (hd : b.dragging = false) (hr : b.resizing = true)
    (hinv : RectInvariant sw sh b.rect) :
    RectInvariant sw sh ((b.mouse_move_event sw sh p).1).rect ∧
      ((b.mouse_move_event sw sh p).1).dragging = false ∧
      ((b.mouse_move_event sw sh p).1).resizing = true := by
  obtain ⟨a1, a2, a3, a4, a5, a6⟩ := hinv
  unfold RectInvariant
  simp [DraggableResizableBox.mouse_move_event, hd, hr, QRect.setWidth,
    QRect.setHeight, QRect.width, QRect.height]
  omega

/-- A sequence of resizing move events preserves the data-model invariant
and both flags. -/
theorem resize_moves_inv (sw sh : Int) (ps : List QPoint)
    (b : DraggableResizableBox) (hd : b.dragging = false)
    (hr : b.resizing = true) (hinv : RectInvariant sw sh b.rect) :
    RectInvariant sw sh (moves sw sh b ps).rect ∧
      (moves sw sh b ps).dragging = false ∧
      (moves sw sh b ps).resizing = true := by
  induction ps generalizing b with
  | nil => exact ⟨hinv, hd, hr⟩
  | cons p ps ih =>
    have h := resize_step_preserves sw sh b p hd hr hinv
    have := ih ((b.mouse_move_event sw sh p).1) h.2.1 h.2.2 h.1
    simpa [moves, List.foldl] using this

/-- C2: for every sequence of resize move events on a box in resizing mode,
starting from a rectangle satisfying the data-model invariant, the
rectangle after the sequence satisfies `width ≥ 100`, `height ≥ 50`,
`x + width ≤ screenWidth` and `y + height ≤ screenHeight`.  Since the
sequence is arbitrary, this holds after every move event of any longer
sequence (every prefix is itself such a sequence). -/
theorem c2_resize_invariant (sw sh : Int) (b : DraggableResizableBox)
    (ps : List QPoint) (hd : b.dragging = false) (hr : b.resizing = true)
    (hinv : RectInvariant sw sh b.rect) :
    100 ≤ (moves sw sh b ps).rect.w ∧ 50 ≤ (moves sw sh b ps).rect.h ∧
    (moves sw sh b ps).rect.x + (moves sw sh b ps).rect.w ≤ sw ∧
    (moves sw sh b ps).rect.y + (moves sw sh b ps).rect.h ≤ sh := by
  obtain ⟨⟨-, -, h3, h4, h5, h6⟩, -, -⟩ := resize_moves_inv sw sh ps b hd hr hinv
  exact ⟨h3, h4, h5, h6⟩

/-- Witness for C2: a concrete resizing box on a 1920 × 1080 screen, with
the pointer first dragged far beyond the bottom-right of the screen and
then far above the top-left; the invariant still holds afterwards. -/
theorem c2_resize_invariant_w :
    100 ≤ (moves 1920 1080 ⟨⟨100, 100, 300, 200⟩, false, true, 10, ⟨395, 295⟩⟩
        [⟨5000, 5000⟩, ⟨-5000, -5000⟩]).rect.w ∧
    50 ≤ (moves 1920 1080 ⟨⟨100, 100, 300, 200⟩, false, true, 10, ⟨395, 295⟩⟩
        [⟨5000, 5000⟩, ⟨-5000, -5000⟩]).rect.h ∧
    (moves 1920 1080 ⟨⟨100, 100, 300, 200⟩, false, true, 10, ⟨395, 295⟩⟩
        [⟨5000, 5000⟩, ⟨-5000, -5000⟩]).rect.x +
      (moves 1920 1080 ⟨⟨100, 100, 300, 200⟩, false, true, 10, ⟨395, 295⟩⟩
        [⟨5000, 5000⟩, ⟨-5000, -5000⟩]).rect.w ≤ 1920 ∧
    (moves 1920 1080 ⟨⟨100, 100, 300, 200⟩, false, true, 10, ⟨395, 295⟩⟩
        [⟨5000, 5000⟩, ⟨-5000, -5000⟩]).rect.y +
      (moves 1920 1080 ⟨⟨100, 100, 300, 200⟩, false, true, 10, ⟨395, 295⟩⟩
        [⟨5000, 5000⟩, ⟨-5000, -5000⟩]).rect.h ≤ 1080 :=
  c2_resize_invariant 1920 1080 _ _ rfl rfl (by decide)

/-- C3: for every sequence of drag move events on a box in dragging mode,
starting from a rectangle satisfying the data-model invariant, the
position afterwards satisfies `0 ≤ x ≤ screenWidth - width` and
`0 ≤ y ≤ screenHeight - height` (and hence after every move event, since
every prefix is itself such a sequence); and concretely, dragging the
selection box from `(150, 150)` by delta `(-400, -400)` on a 1920 × 1080
screen yields final position `(0, 0)`. -/
theorem c3_drag_invariant :
    (∀ (sw sh : Int) (b : DraggableResizableBox) (ps : List QPoint),
      b.dragging = true → RectInvariant sw sh b.rect →
        0 ≤ (moves sw sh b ps).rect.x ∧
        (moves sw sh b ps).rect.x ≤ sw - (moves sw sh b ps).rect.w ∧
        0 ≤ (moves sw sh b ps).rect.y ∧
        (moves sw sh b ps).rect.y ≤ sh - (moves sw sh b ps).rect.h) ∧
    (moves 1920 1080 ⟨⟨150, 150, 300, 200⟩, true, false, 10, ⟨400, 400⟩⟩
      [⟨0, 0⟩]).rect.x = 0 ∧
    (moves 1920 1080 ⟨⟨150, 150, 300, 200⟩, true, false, 10, ⟨400, 400⟩⟩
      [⟨0, 0⟩]).rect.y = 0 := by
  refine ⟨?_, by decide, by decide⟩
  intro sw sh b ps hd hinv
  obtain ⟨⟨a1, a2, -, -, a5, a6⟩, -⟩ := drag_moves_inv sw sh ps b hd hinv
  exact ⟨a1, by omega, a2, by omega⟩

/-- Witness for C3: the universal part applied to a concrete dragging box
on a 1920 × 1080 screen with the pointer moved far past every edge. -/
theorem c3_drag_invariant_w :
    0 ≤ (moves 1920 1080 ⟨⟨150, 150, 300, 200⟩, true, false, 10, ⟨400, 400⟩⟩
        [⟨-5000, -5000⟩, ⟨9000, 9000⟩]).rect.x ∧
    (moves 1920 1080 ⟨⟨150, 150, 300, 200⟩, true, false, 10, ⟨400, 400⟩⟩
        [⟨-5000, -5000⟩, ⟨9000, 9000⟩]).rect.x ≤
      1920 - (moves 1920 1080 ⟨⟨150, 150, 300, 200⟩, true, false, 10, ⟨400, 400⟩⟩
        [⟨-5000, -5000⟩, ⟨9000, 9000⟩]).rect.w ∧
    0 ≤ (moves 1920 1080 ⟨⟨150, 150, 300, 200⟩, true, false, 10, ⟨400, 400⟩⟩
        [⟨-5000, -5000⟩, ⟨9000, 9000⟩]).rect.y ∧
    (moves 1920 1080 ⟨⟨150, 150, 300, 200⟩, true, false, 10, ⟨400, 400⟩⟩
        [⟨-5000, -5000⟩, ⟨9000, 9000⟩]).rect.y ≤
      1080 - (moves 1920 1080 ⟨⟨150, 150, 300, 200⟩, true, false, 10, ⟨400, 400⟩⟩
        [⟨-5000, -5000⟩, ⟨9000, 9000⟩]).rect.h :=
  c3_drag_invariant.1 1920 1080 _ _ rfl (by decide)

/-- C10: a single move event on a dragging box changes only the position
(width and height exactly unchanged); on a resizing box only the size
(`x` and `y` exactly unchanged); on an idle box nothing at all, and the
event returns `false`. -/
theorem c10_move_frame (sw sh : Int) (b : DraggableResizableBox)
    (pos : QPoint) :
    (b.mode = Mode.Dragging →
      ((b.mouse_move_event sw sh pos).1).rect.w = b.rect.w ∧
      ((b.mouse_move_event sw sh pos).1).rect.h = b.rect.h) ∧
    (b.mode = Mode.Resizing →
      ((b.mouse_move_event sw sh pos).1).rect.x = b.rect.x ∧
      ((b.mouse_move_event sw sh pos).1).rect.y = b.rect.y) ∧
    (b.mode = Mode.Idle →
      b.mouse_move_event sw sh pos = (b, false)) := by
  refine ⟨?_, ?_, ?_⟩
  · intro h
    have hd := (mode_dragging_iff b).mp h
    simp [DraggableResizableBox.mouse_move_event, hd, QRect.moveTo,
      QRect.width, QRect.height]
  · intro h
    obtain ⟨hd, hr⟩ := (mode_resizing_iff b).mp h
    simp [DraggableResizableBox.mouse_move_event, hd, hr, QRect.setWidth,
      QRect.setHeight]
  · intro h
    obtain ⟨hd, hr⟩ := (mode_idle_iff b).mp h
    simp [DraggableResizableBox.mouse_move_event, hd, hr]

/-- Witness for C10: the idle branch at a concrete box — the move event
leaves the box unchanged and returns `false` — and the dragging branch at
a concrete dragging box. -/
theorem c10_move_frame_w :
    DraggableResizableBox.mouse_move_event
        (DraggableResizableBox.init ⟨100, 100, 300, 200⟩) 1920 1080 ⟨7, 7⟩ =
      (DraggableResizableBox.init ⟨100, 100, 300, 200⟩, false) ∧
    ((DraggableResizableBox.mouse_move_event
        ⟨⟨150, 150, 300, 200⟩, true, false, 10, ⟨400, 400⟩⟩ 1920 1080
        ⟨0, 0⟩).1).rect.w = 300 :=
  ⟨(c10_move_frame 1920 1080 (DraggableResizableBox.init ⟨100, 100, 300, 200⟩)
      ⟨7, 7⟩).2.2 (by decide),
   (c10_move_frame 1920 1080
      ⟨⟨150, 150, 300, 200⟩, true, false, 10, ⟨400, 400⟩⟩ ⟨0, 0⟩).1
      (by decide) |>.1⟩

/-- C4: on a pointer-down on an idle box, a point inside the rectangle and
within the 10px resize margin of the bottom-right corner (in both
coordinates, as the source tests it) puts the box in resizing mode; any
other point inside the rectangle puts it in dragging mode; a point outside
leaves the box unchanged (mode stays idle).  In both non-idle transitions
the drag anchor is set to the point and the rectangle is untouched; the
corner test is decided before the drag test, so it wins whenever both
apply. -/
theorem c4_press_transitions (b : DraggableResizableBox) (pos : QPoint)
    (hIdle : b.mode = Mode.Idle) :
    (b.rect.contains pos = true →
      (|pos.x - b.rect.right| < b.resize_margin ∧
        |pos.y - b.rect.bottom| < b.resize_margin) →
      (b.mouse_press_event pos).mode = Mode.Resizing ∧
      (b.mouse_press_event pos).drag_start = pos ∧
      (b.mouse_press_event pos).rect = b.rect) ∧
    (b.rect.contains pos = true →
      ¬(|pos.x - b.rect.right| < b.resize_margin ∧
        |pos.y - b.rect.bottom| < b.resize_margin) →
      (b.mouse_press_event pos).mode = Mode.Dragging ∧
      (b.mouse_press_event pos).drag_start = pos ∧
      (b.mouse_press_event pos).rect = b.rect) ∧
    (b.rect.contains pos = false → b.mouse_press_event pos = b) := by
  obtain ⟨hd, hr⟩ := (mode_idle_iff b).mp hIdle
  refine ⟨?_, ?_, ?_⟩
  · intro hc hcorner
    simp [DraggableResizableBox.mouse_press_event, hc, hcorner,
      DraggableResizableBox.mode, hd]
  · intro hc hcorner
    simp [DraggableResizableBox.mouse_press_event, hc, hcorner,
      DraggableResizableBox.mode]
  · intro hc
    simp [DraggableResizableBox.mouse_press_event, hc]

/-- Witness for C4: pressing an idle box at default geometry on the corner
point `(395, 295)` (inside the margin of `(right, bottom) = (399, 299)`)
enters resizing with anchor `(395, 295)`; the interior point `(200, 200)`
enters dragging; the outside point `(50, 50)` changes nothing. -/
theorem c4_press_transitions_w :
    ((DraggableResizableBox.init ⟨100, 100, 300, 200⟩).mouse_press_event
        ⟨395, 295⟩).mode = Mode.Resizing ∧
    ((DraggableResizableBox.init ⟨100, 100, 300, 200⟩).mouse_press_event
        ⟨200, 200⟩).mode = Mode.Dragging ∧
    ((DraggableResizableBox.init ⟨100, 100, 300, 200⟩).mouse_press_event
        ⟨200, 200⟩).drag_start = ⟨200, 200⟩ ∧
    (DraggableResizableBox.init ⟨100, 100, 300, 200⟩).mouse_press_event
        ⟨50, 50⟩ = DraggableResizableBox.init ⟨100, 100, 300, 200⟩ :=
  ⟨((c4_press_transitions (DraggableResizableBox.init ⟨100, 100, 300, 200⟩)
      ⟨395, 295⟩ (by decide)).1 (by decide) (by decide)).1,
   ((c4_press_transitions (DraggableResizableBox.init ⟨100, 100, 300, 200⟩)
      ⟨200, 200⟩ (by decide)).2.1 (by decide) (by decide)).1,
   ((c4_press_transitions (DraggableResizableBox.init ⟨100, 100, 300, 200⟩)
      ⟨200, 200⟩ (by decide)).2.1 (by decide) (by decide)).2.1,
   (c4_press_transitions (DraggableResizableBox.init ⟨100, 100, 300, 200⟩)
      ⟨50, 50⟩ (by decide)).2.2 (by decide)⟩

/-- C8: a pointer-up resets the mode to idle unconditionally, and is
idempotent — on an already idle box it changes nothing at all (mode,
rectangle and anchor included, since the whole box value is unchanged). -/
theorem c8_release_idempotent (b : DraggableResizableBox) :
    (b.mouse_release_event).mode = Mode.Idle ∧
    (b.mode = Mode.Idle → b.mouse_release_event = b) := by
  constructor
  · simp [DraggableResizableBox.mouse_release_event,
      DraggableResizableBox.mode]
  · intro h
    obtain ⟨hd, hr⟩ := (mode_idle_iff b).mp h
    cases b
    simp_all [DraggableResizableBox.mouse_release_event]

/-- Witness for C8: releasing an already idle box at default geometry is a
no-op, and releasing a dragging box yields idle mode. -/
theorem c8_release_idempotent_w :
    (DraggableResizableBox.init ⟨100, 100, 300, 200⟩).mouse_release_event =
      DraggableResizableBox.init ⟨100, 100, 300, 200⟩ ∧
    (DraggableResizableBox.mouse_release_event
      ⟨⟨150, 150, 300, 200⟩, true, false, 10, ⟨400, 400⟩⟩).mode = Mode.Idle :=
  ⟨(c8_release_idempotent (DraggableResizableBox.init ⟨100, 100, 300, 200⟩)).2
      (by decide),
   (c8_release_idempotent ⟨⟨150, 150, 300, 200⟩, true, false, 10, ⟨400, 400⟩⟩).1⟩

/-- C5: when the recognized text is blank after stripping, the iteration
invokes no translation (the flag is false and the outcome is independent
of the translation collaborator) and leaves the whole controller state —
in particular the current translated text and the channel queue —
unchanged, so no result is emitted that iteration. -/
theorem c5_blank_text_skips_translation (c : ExternalServices)
    (s : OverlayState) (img : RGBImage) (text : String)
    (hg : c.grab (monitorOf s.selection_rect) = Except.ok img)
    (hr : c.image_to_string img = Except.ok text)
    (hb : pyStrip text = "") :
    (capture_and_translate_iteration c s).translate_called = false ∧
    (capture_and_translate_iteration c s).state = s ∧
    ∀ tr : String → Except PipeErr String,
      capture_and_translate_iteration { c with translate := tr } s =
        capture_and_translate_iteration c s := by
  refine ⟨?_, ?_, ?_⟩ <;>
    simp [capture_and_translate_iteration, hg, hr, hb]

/-- Witness for C5: concrete services whose recognition result is the
whitespace-only string; the iteration is a no-op that never calls the
translation stub. -/
theorem c5_blank_text_skips_translation_w :
    (capture_and_translate_iteration
      ⟨fun _ => Except.ok ⟨0⟩, fun _ => Except.ok "  \x09\x0a ",
        fun _ => Except.ok "SHOULD NOT RUN"⟩
      ⟨true, "previous", ⟨100, 100, 300, 200⟩, [], 0⟩).translate_called =
        false ∧
    (capture_and_translate_iteration
      ⟨fun _ => Except.ok ⟨0⟩, fun _ => Except.ok "  \x09\x0a ",
        fun _ => Except.ok "SHOULD NOT RUN"⟩
      ⟨true, "previous", ⟨100, 100, 300, 200⟩, [], 0⟩).state =
        ⟨true, "previous", ⟨100, 100, 300, 200⟩, [], 0⟩ := by
  have h := c5_blank_text_skips_translation
    ⟨fun _ => Except.ok ⟨0⟩, fun _ => Except.ok "  \x09\x0a ",
      fun _ => Except.ok "SHOULD NOT RUN"⟩
    ⟨true, "previous", ⟨100, 100, 300, 200⟩, [], 0⟩ ⟨0⟩ "  \x09\x0a "
    rfl rfl (by decide)
  exact ⟨h.1, h.2.1⟩

/-- C6: when the grab call raises a capture error, the iteration leaves the
whole state (so in particular `running` and the translated text)
unchanged, the single `except` clause catches the error, and the loop
proceeds to the next interval: with `running` still true, one more unit of
loop fuel from this state is simply consumed without effect. -/
theorem c6_capture_error_nonfatal (c : ExternalServices) (s : OverlayState)
    (fuel : Nat)
    (hg : c.grab (monitorOf s.selection_rect) =
      Except.error PipeErr.captureError) :
    (capture_and_translate_iteration c s).state = s ∧
    (capture_and_translate_iteration c s).state.running = s.running ∧
    (capture_and_translate_iteration c s).state.translated_text =
      s.translated_text ∧
    (capture_and_translate_iteration c s).caught =
      some PipeErr.captureError ∧
    (s.running = true →
      capture_and_translate_loop c (fuel + 1) s =
        capture_and_translate_loop c fuel s) := by
  have hstate : (capture_and_translate_iteration c s).state = s := by
    simp [capture_and_translate_iteration, hg]
  refine ⟨hstate, by rw [hstate], by rw [hstate], ?_, ?_⟩
  · simp [capture_and_translate_iteration, hg]
  · intro hrun
    simp [capture_and_translate_loop, hrun, hstate]

/-- Witness for C6: concrete services whose grab always raises a capture
error, applied to a running state with stale text; nothing changes and the
loop keeps going. -/
theorem c6_capture_error_nonfatal_w :
    (capture_and_translate_iteration
      ⟨fun _ => Except.error PipeErr.captureError,
        fun _ => Except.ok "unreached", fun _ => Except.ok "unreached"⟩
      ⟨true, "stale", ⟨100, 100, 300, 200⟩, [], 0⟩).state =
        ⟨true, "stale", ⟨100, 100, 300, 200⟩, [], 0⟩ ∧
    capture_and_translate_loop
      ⟨fun _ => Except.error PipeErr.captureError,
        fun _ => Except.ok "unreached", fun _ => Except.ok "unreached"⟩ 3
      ⟨true, "stale", ⟨100, 100, 300, 200⟩, [], 0⟩ =
      capture_and_translate_loop
        ⟨fun _ => Except.error PipeErr.captureError,
          fun _ => Except.ok "unreached", fun _ => Except.ok "unreached"⟩ 2
        ⟨true, "stale", ⟨100, 100, 300, 200⟩, [], 0⟩ := by
  have h := c6_capture_error_nonfatal
    ⟨fun _ => Except.error PipeErr.captureError,
      fun _ => Except.ok "unreached", fun _ => Except.ok "unreached"⟩
    ⟨true, "stale", ⟨100, 100, 300, 200⟩, [], 0⟩ 2 rfl
  exact ⟨h.1, h.2.2.2.2 rfl⟩

/-- Translation stub and capture stub of the spec's concrete scenario for
C7. -/
def c7_services : ExternalServices :=
  { grab := fun _ => Except.ok ⟨0⟩,
    image_to_string := fun _ => Except.ok "Hello",
    translate := fun _ => Except.ok "你好" }

/-- Controller state at the start of the C7 scenario: selection box at its
default rectangle, no text yet, empty channel, no redraw requested. -/
def c7_start : OverlayState :=
  { running := true, translated_text := "",
    selection_rect := default_selection_rect, queued := [], redraws := 0 }

/-- C7: one pipeline iteration with the selection box at its default
`(100, 100, 300, 200)` rectangle, recognized text `"Hello"` and a
translation stub returning `"你好"`, followed by the channel delivery on
the UI thread, leaves the translated text equal to `"你好"` with exactly
one redraw requested (and the translation service was invoked). -/
theorem c7_hello_scenario :
    (drain_channel
        (capture_and_translate_iteration c7_services c7_start).state
      ).translated_text = "你好" ∧
    (drain_channel
        (capture_and_translate_iteration c7_services c7_start).state
      ).redraws = 1 ∧
    (capture_and_translate_iteration c7_services c7_start).translate_called =
      true := by
  decide

/-- C1 counterexample: for the malformed stored geometry value `"abc"`
(not four comma-separated integers), startup does not substitute the
default rectangle — `map(int, data.split(","))` raises a `ValueError`
that nothing in `Overlay.__init__` catches, so construction fails
fatally. -/
theorem c1_counterexample :
    parse_geometry "abc" = none ∧
    load_box_geometry (some "abc") default_selection_rect =
      Except.error GeomLoadError.valueError ∧
    ∀ r : QRect,
      load_box_geometry (some "abc") default_selection_rect ≠
        Except.ok r := by
  refine ⟨by decide, rfl, ?_⟩
  intro r h
  exact Except.noConfusion
    (show (Except.error GeomLoadError.valueError :
        Except GeomLoadError QRect) = Except.ok r from h)

/-- C1 amended: at startup, when no geometry value is stored for a box the
documented default rectangle is used; when a stored value parses as four
comma-separated integers that rectangle is used; but when the stored
value is malformed the parse raises an uncaught `ValueError` and startup
fails — the default is not substituted. -/
theorem c1_amended_geometry_load (stored : Option String) (d : QRect) :
    (stored = none → load_box_geometry stored d = Except.ok d) ∧
    (∀ s, stored = some s → parse_geometry s = none →
      load_box_geometry stored d = Except.error GeomLoadError.valueError) ∧
    (∀ s r, stored = some s → parse_geometry s = some r →
      load_box_geometry stored d = Except.ok r) := by
  refine ⟨?_, ?_, ?_⟩
  · intro h
    subst h
    rfl
  · intro s h hp
    subst h
    simp [load_box_geometry, hp]
  · intro s r h hp
    subst h
    simp [load_box_geometry, hp]

/-- Witness for the amended C1: absence of a stored value yields the
default selection rectangle, the well-formed stored string
`"10,20,300,200"` yields that rectangle, and the malformed stored string
`"oops"` yields the fatal `ValueError`. -/
theorem c1_amended_geometry_load_w :
    load_box_geometry none default_selection_rect =
      Except.ok default_selection_rect ∧
    load_box_geometry (some "10,20,300,200") default_translation_rect =
      Except.ok ⟨10, 20, 300, 200⟩ ∧
    load_box_geometry (some "oops") default_translation_rect =
      Except.error GeomLoadError.valueError :=
  ⟨(c1_amended_geometry_load none default_selection_rect).1 rfl,
   (c1_amended_geometry_load (some "10,20,300,200")
      default_translation_rect).2.2 "10,20,300,200" ⟨10, 20, 300, 200⟩ rfl
      (by decide),
   (c1_amended_geometry_load (some "oops") default_translation_rect).2.1
      "oops" rfl (by decide)⟩

/-- The selection rectangle before the UI-thread drag of the C9 scenario
publishes a new value. -/
def c9_rect_before : QRect := ⟨150, 150, 300, 200⟩

/-- The selection rectangle after the UI thread drags the box to the
origin (the clamped drag of the C3 scenario). -/
def c9_rect_after : QRect := ⟨0, 0, 300, 200⟩

/-- The torn observation: the `top` read happens before the mutation, the
`left`, `width` and `height` reads after it. -/
def c9_torn_reads : Fin 4 → QRect :=
  fun i => if i = 0 then c9_rect_before else c9_rect_after

/-- C9 counterexample: the pipeline's four-field read is not an atomic
snapshot.  For the two-value mutation trace in which the UI thread moves
the selection box from `(150, 150)` to `(0, 0)` between the pipeline's
`top` read and its `left` read, the observed monitor (`top = 150`,
`left = 0`) matches no single published rectangle — a half-updated
rectangle is observed. -/
theorem c9_counterexample :
    ¬ SnapshotConsistent [c9_rect_before, c9_rect_after] := by
  intro h
  obtain ⟨r, hmem, heq⟩ := h c9_torn_reads
    ⟨fun i => if i = 0 then 0 else 1, by decide, by decide⟩
  simp only [List.mem_cons, List.not_mem_nil, or_false] at hmem
  rcases hmem with h1 | h1 <;> subst h1 <;> exact absurd heq (by decide)

/-- C9 amended: the pipeline builds the monitor from four separate reads of
the shared rectangle (in source order `top`, `left`, `width`, `height`);
when no mutation happens between the four reads the observed monitor is
the consistent snapshot of that rectangle, but a UI-thread mutation
between reads can produce a monitor matching no single published
rectangle value. -/
theorem c9_amended_torn_read :
    (∀ (f : Fin 4 → QRect) (r : QRect), (∀ i, f i = r) →
      monitor_from_reads f = monitorOf r) ∧
    (∃ trace : List QRect, ∃ f : Fin 4 → QRect,
      Obs trace f ∧ ∀ r ∈ trace, monitor_from_reads f ≠ monitorOf r) := by
  constructor
  · intro f r h
    simp [monitor_from_reads, monitorOf, h]
  · refine ⟨[c9_rect_before, c9_rect_after], c9_torn_reads,
      ⟨fun i => if i = 0 then 0 else 1, by decide, by decide⟩, ?_⟩
    intro r hmem
    simp only [List.mem_cons, List.not_mem_nil, or_false] at hmem
    rcases hmem with h1 | h1 <;> subst h1 <;> decide

/-- Witness for the amended C9: four reads that all see the default
selection rectangle produce exactly its consistent monitor. -/
theorem c9_amended_torn_read_w :
    monitor_from_reads (fun _ => default_selection_rect) =
      monitorOf default_selection_rect :=
  c9_amended_torn_read.1 (fun _ => default_selection_rect)
    default_selection_rect (fun _ => rfl)
